import Mathlib

/-!
Verification of the CraftingGame economy engine
(src/CraftingGame/script.js).

The script keeps module-level integer counters (`money` plus eight
resource counters) and exposes three operations: `buy`, `craft` and
`sell`.  We embed the counters as a `GameState` record of integers and
each JavaScript function as a pure state transformer.  DOM writes
(`innerHTML` updates) are presentation only and carry no state, so they
are dropped; the one diagnostic the script can emit
(`console.error('item not registered')` inside `buy`) is modelled as a
Boolean flag returned next to the new state.
-/

/-- The mutable state of script.js: `money` (line 16) and the eight
resource counters (lines 20-31). -/
structure GameState where
  money : Int
  milk : Int
  bread : Int
  plate : Int
  milkbread : Int
  milksandwich : Int
  milkmeal : Int
  cheese : Int
  cheesesandwich : Int
  deriving DecidableEq

/-- The initial state of the script: money = 10, every counter 0. -/
def initState : GameState :=
  { money := 10, milk := 0, bread := 0, plate := 0, milkbread := 0,
    milksandwich := 0, milkmeal := 0, cheese := 0, cheesesandwich := 0 }

/-- `buy` (script.js lines 34-52).  Returns the new state together with
a flag that is `true` exactly when the script logs
`'item not registered'` (line 48).  The deduction/refund dance of the
unknown-item branch (lines 36 and 47) is kept as in the source. -/
def buy (price : Int) (item : String) (s : GameState) : GameState × Bool :=
  if price ≤ s.money then
    let s1 := { s with money := s.money - price }
    if item = "milk" then ({ s1 with milk := s1.milk + 1 }, false)
    else if item = "bread" then ({ s1 with bread := s1.bread + 1 }, false)
    else if item = "plate" then ({ s1 with plate := s1.plate + 1 }, false)
    else ({ s1 with money := s1.money + price }, true)
  else (s, false)

/-- `craft` (script.js lines 55-100): five guarded recipes, unknown
names fall through unchanged. -/
def craft (item : String) (s : GameState) : GameState :=
  if item = "milkbread" then
    if 0 < s.milk ∧ 0 < s.bread then
      { s with bread := s.bread - 1, milk := s.milk - 1,
               milkbread := s.milkbread + 1 }
    else s
  else if item = "milksandwich" then
    if 1 < s.milkbread then
      { s with milkbread := s.milkbread - 2,
               milksandwich := s.milksandwich + 1 }
    else s
  else if item = "milkmeal" then
    if 0 < s.milksandwich ∧ 0 < s.milk ∧ 0 < s.plate then
      { s with milksandwich := s.milksandwich - 1, milk := s.milk - 1,
               plate := s.plate - 1, milkmeal := s.milkmeal + 1 }
    else s
  else if item = "cheese" then
    if 0 < s.milk then
      { s with milk := s.milk - 1, cheese := s.cheese + 1 }
    else s
  else if item = "cheesesandwich" then
    if 0 < s.cheese ∧ 1 < s.bread then
      { s with cheese := s.cheese - 1, bread := s.bread - 2,
               cheesesandwich := s.cheesesandwich + 1 }
    else s
  else s

/-- `sell` (script.js lines 103-131).  The first three branches guard
on a positive counter; the `cheesesandwich` branch (lines 125-130) has
no guard and decrements unconditionally, exactly as in the source. -/
def sell (price : Int) (item : String) (s : GameState) : GameState :=
  if item = "milkbread" then
    if 0 < s.milkbread then
      { s with milkbread := s.milkbread - 1, money := s.money + price }
    else s
  else if item = "milksandwich" then
    if 0 < s.milksandwich then
      { s with milksandwich := s.milksandwich - 1, money := s.money + price }
    else s
  else if item = "milkmeal" then
    if 0 < s.milkmeal then
      { s with milkmeal := s.milkmeal - 1, money := s.money + price }
    else s
  else if item = "cheesesandwich" then
    { s with cheesesandwich := s.cheesesandwich - 1, money := s.money + price }
  else s

/-- One user-triggered operation of the game. -/
inductive Op where
  | buy (price : Int) (item : String)
  | craft (item : String)
  | sell (price : Int) (item : String)
  deriving DecidableEq

/-- Apply one operation to a state. -/
def step (s : GameState) : Op → GameState
  | .buy p i => (buy p i s).1
  | .craft i => craft i s
  | .sell p i => sell p i s

/-- Run a sequence of operations from a state. -/
def run (ops : List Op) (s : GameState) : GameState :=
  ops.foldl step s

/-- All counters and the wallet are non-negative. -/
def nonneg (s : GameState) : Prop :=
  0 ≤ s.money ∧ 0 ≤ s.milk ∧ 0 ≤ s.bread ∧ 0 ≤ s.plate ∧
  0 ≤ s.milkbread ∧ 0 ≤ s.milksandwich ∧ 0 ≤ s.milkmeal ∧
  0 ≤ s.cheese ∧ 0 ≤ s.cheesesandwich

instance (s : GameState) : Decidable (nonneg s) := by
  unfold nonneg; infer_instance

/-- C1: the spec's invariant "every resource counter and the wallet
remain ≥ 0 for all operation sequences" fails on the code: the single
operation `sell(1, 'cheesesandwich')` from the initial state drives the
`cheesesandwich` counter to -1, because the sell branch at script.js
lines 125-130 lacks the inventory guard of the other branches. -/
theorem c1_invariant_broken_by_unguarded_sell :
    (run [Op.sell 1 "cheesesandwich"] initState).cheesesandwich = -1 ∧
    ¬ nonneg (run [Op.sell 1 "cheesesandwich"] initState) := by
  decide

/-- C2: the claim that `sell(price, 'cheesesandwich')` with a zero
counter is treated as an error and never drives the counter negative is
violated by the code: from the initial state (cheesesandwich = 0),
`sell(2, 'cheesesandwich')` silently yields cheesesandwich = -1 and
money = 12. -/
theorem c2_sell_cheesesandwich_goes_negative :
    sell 2 "cheesesandwich" initState =
      { initState with cheesesandwich := -1, money := 12 } ∧
    (sell 2 "cheesesandwich" initState).cheesesandwich < 0 := by
  decide

/-- C9: the recipe chain scenario.  From the initial state, the
sequence buy(1,milk); buy(1,bread); craft(milkbread);
craft(milksandwich); buy(1,milk); buy(1,bread); craft(milkbread);
craft(milksandwich) passes through exactly the intermediate states the
spec lists: milk=1/money=9, bread=1/money=8, milkbread=1 with
milk=bread=0, a no-op on the first milksandwich attempt, milkbread=2,
and finally milkbread=0, milksandwich=1. -/
theorem c9_recipe_chain_scenario :
    run [Op.buy 1 "milk"] initState =
      { initState with money := 9, milk := 1 } ∧
    run [Op.buy 1 "milk", Op.buy 1 "bread"] initState =
      { initState with money := 8, milk := 1, bread := 1 } ∧
    run [Op.buy 1 "milk", Op.buy 1 "bread", Op.craft "milkbread"]
        initState =
      { initState with money := 8, milkbread := 1 } ∧
    run [Op.buy 1 "milk", Op.buy 1 "bread", Op.craft "milkbread",
         Op.craft "milksandwich"] initState =
      { initState with money := 8, milkbread := 1 } ∧
    run [Op.buy 1 "milk", Op.buy 1 "bread", Op.craft "milkbread",
         Op.craft "milksandwich", Op.buy 1 "milk", Op.buy 1 "bread",
         Op.craft "milkbread"] initState =
      { initState with money := 6, milkbread := 2 } ∧
    run [Op.buy 1 "milk", Op.buy 1 "bread", Op.craft "milkbread",
         Op.craft "milksandwich", Op.buy 1 "milk", Op.buy 1 "bread",
         Op.craft "milkbread", Op.craft "milksandwich"] initState =
      { initState with money := 6, milksandwich := 1 } := by
  decide

/-- C3: buy correctness for the three registered primary resources.
With wallet ≥ price, `buy` deducts the price and increments the named
counter by one (and changes nothing else); with wallet < price it is a
silent no-op. -/
theorem c3_buy_correct (p : Int) (s : GameState) (hp : 0 ≤ p) :
    (p ≤ s.money →
      buy p "milk" s =
        ({ s with money := s.money - p, milk := s.milk + 1 }, false) ∧
      buy p "bread" s =
        ({ s with money := s.money - p, bread := s.bread + 1 }, false) ∧
      buy p "plate" s =
        ({ s with money := s.money - p, plate := s.plate + 1 }, false)) ∧
    (s.money < p →
      buy p "milk" s = (s, false) ∧
      buy p "bread" s = (s, false) ∧
      buy p "plate" s = (s, false)) := by
  constructor
  · intro h
    refine ⟨?_, ?_, ?_⟩ <;> simp [buy, h]
  · intro h
    have h2 : ¬ p ≤ s.money := not_le.mpr h
    refine ⟨?_, ?_, ?_⟩ <;> simp [buy, h2]

/-- Witness for C3 at price 1 from the initial state. -/
theorem c3_buy_correct_witness :
    buy 1 "milk" initState =
      ({ initState with money := initState.money - 1,
                        milk := initState.milk + 1 }, false) :=
  ((c3_buy_correct 1 initState (by decide)).1 (by decide)).1

/-- C4: craft('milkbread') with milk ≥ 1 and bread ≥ 1 consumes one
milk and one bread and produces one milkbread, changing nothing else;
with milk = 0 or bread = 0 it leaves all counters unchanged. -/
theorem c4_craft_milkbread_correct (s : GameState) :
    (1 ≤ s.milk → 1 ≤ s.bread →
      craft "milkbread" s =
        { s with bread := s.bread - 1, milk := s.milk - 1,
                 milkbread := s.milkbread + 1 }) ∧
    (s.milk = 0 ∨ s.bread = 0 → craft "milkbread" s = s) := by
  constructor
  · intro hm hb
    have hg : 0 < s.milk ∧ 0 < s.bread := ⟨hm, hb⟩
    simp [craft, hg]
  · intro h
    have hg : ¬ (0 < s.milk ∧ 0 < s.bread) := by
      rcases h with h | h <;> simp [h]
    simp [craft, hg]

/-- Witness for C4: one milk and one bread craft into one milkbread. -/
theorem c4_craft_milkbread_correct_witness :
    craft "milkbread" { initState with milk := 1, bread := 1 } =
      { ({ initState with milk := 1, bread := 1 } : GameState) with
          bread := ({ initState with milk := 1, bread := 1 } : GameState).bread - 1,
          milk := ({ initState with milk := 1, bread := 1 } : GameState).milk - 1,
          milkbread := ({ initState with milk := 1, bread := 1 } : GameState).milkbread + 1 } :=
  (c4_craft_milkbread_correct { initState with milk := 1, bread := 1 }).1
    (by decide) (by decide)

/-- C5: sell correctness for the four sellable resources.  With at
least one unit held, `sell` decrements that counter by one and adds the
price to the wallet, changing nothing else. -/
theorem c5_sell_correct (p : Int) (s : GameState) :
    (1 ≤ s.milkbread → sell p "milkbread" s =
      { s with milkbread := s.milkbread - 1, money := s.money + p }) ∧
    (1 ≤ s.milksandwich → sell p "milksandwich" s =
      { s with milksandwich := s.milksandwich - 1, money := s.money + p }) ∧
    (1 ≤ s.milkmeal → sell p "milkmeal" s =
      { s with milkmeal := s.milkmeal - 1, money := s.money + p }) ∧
    (1 ≤ s.cheesesandwich → sell p "cheesesandwich" s =
      { s with cheesesandwich := s.cheesesandwich - 1, money := s.money + p }) := by
  refine ⟨fun h => ?_, fun h => ?_, fun h => ?_, fun h => ?_⟩ <;>
  · have hg := Int.lt_of_lt_of_le Int.zero_lt_one h
    simp [sell, hg]

/-- Witness for C5: selling one held milkbread at price 3. -/
theorem c5_sell_correct_witness :
    sell 3 "milkbread" { initState with milkbread := 1 } =
      { ({ initState with milkbread := 1 } : GameState) with
          milkbread := ({ initState with milkbread := 1 } : GameState).milkbread - 1,
          money := ({ initState with milkbread := 1 } : GameState).money + 3 } :=
  (c5_sell_correct 3 { initState with milkbread := 1 }).1 (by decide)

/-- C6 counterexample: the claim promises an UnknownItem signal for
every price, but with price = 100 > money = 10 the name check at
script.js line 46 is never reached: `buy(100, 'gold')` from the initial
state leaves the state unchanged and emits no diagnostic. -/
theorem c6_unknown_item_counterexample :
    "gold" ≠ "milk" ∧ "gold" ≠ "bread" ∧ "gold" ≠ "plate" ∧
    (buy 100 "gold" initState).1 = initState ∧
    (buy 100 "gold" initState).2 = false := by
  decide

/-- C6 amended: for an unregistered name, `buy` always leaves the
state unchanged, and it emits the unknown-item diagnostic exactly when
the wallet covers the price. -/
theorem c6_buy_unknown_item (p : Int) (item : String) (s : GameState)
    (h1 : item ≠ "milk") (h2 : item ≠ "bread") (h3 : item ≠ "plate") :
    (buy p item s).1 = s ∧
    ((buy p item s).2 = true ↔ p ≤ s.money) := by
  unfold buy
  split_ifs with hm
  · simp [h1, h2, h3, hm]
  · simp [hm]

/-- Witness for C6's amended theorem at buy(1, 'gold') from the
initial state. -/
theorem c6_buy_unknown_item_witness :
    (buy 1 "gold" initState).1 = initState ∧
    ((buy 1 "gold" initState).2 = true ↔ (1 : Int) ≤ initState.money) :=
  c6_buy_unknown_item 1 "gold" initState (by decide) (by decide) (by decide)

/-- C7: for milkbread, milksandwich and milkmeal, selling with a zero
counter is a silent no-op: the guards at script.js lines 105, 112 and
119 fail and nothing changes. -/
theorem c7_sell_zero_noop (p : Int) (s : GameState) :
    (s.milkbread = 0 → sell p "milkbread" s = s) ∧
    (s.milksandwich = 0 → sell p "milksandwich" s = s) ∧
    (s.milkmeal = 0 → sell p "milkmeal" s = s) := by
  refine ⟨fun h => ?_, fun h => ?_, fun h => ?_⟩ <;>
    simp [sell, h]

/-- Witness for C7 at the initial state (all counters zero). -/
theorem c7_sell_zero_noop_witness :
    sell 5 "milkbread" initState = initState :=
  (c7_sell_zero_noop 5 initState).1 (by decide)

/-- `craft` never touches the wallet. -/
lemma craft_money_frame (item : String) (s : GameState) :
    (craft item s).money = s.money := by
  unfold craft
  split_ifs <;> rfl

/-- `buy` either leaves the wallet unchanged or decreases it by the
price. -/
lemma buy_money_frame (p : Int) (item : String) (s : GameState) :
    (buy p item s).1.money = s.money ∨
    (buy p item s).1.money = s.money - p := by
  unfold buy
  split_ifs <;> simp

/-- `buy` never touches a crafted counter and moves each primary
counter by at most +1. -/
lemma buy_counters_frame (p : Int) (item : String) (s : GameState) :
    ((buy p item s).1.milkbread = s.milkbread ∧
     (buy p item s).1.milksandwich = s.milksandwich ∧
     (buy p item s).1.milkmeal = s.milkmeal ∧
     (buy p item s).1.cheese = s.cheese ∧
     (buy p item s).1.cheesesandwich = s.cheesesandwich) ∧
    ((buy p item s).1.milk = s.milk ∨ (buy p item s).1.milk = s.milk + 1) ∧
    ((buy p item s).1.bread = s.bread ∨ (buy p item s).1.bread = s.bread + 1) ∧
    ((buy p item s).1.plate = s.plate ∨ (buy p item s).1.plate = s.plate + 1) := by
  unfold buy
  split_ifs <;> simp

/-- `sell` either leaves the wallet unchanged or increases it by the
price. -/
lemma sell_money_frame (p : Int) (item : String) (s : GameState) :
    (sell p item s).money = s.money ∨
    (sell p item s).money = s.money + p := by
  unfold sell
  split_ifs <;> simp

/-- `sell` never touches a primary counter or `cheese`, and moves each
sellable counter by at most -1. -/
lemma sell_counters_frame (p : Int) (item : String) (s : GameState) :
    ((sell p item s).milk = s.milk ∧ (sell p item s).bread = s.bread ∧
     (sell p item s).plate = s.plate ∧ (sell p item s).cheese = s.cheese) ∧
    ((sell p item s).milkbread = s.milkbread ∨
     (sell p item s).milkbread = s.milkbread - 1) ∧
    ((sell p item s).milksandwich = s.milksandwich ∨
     (sell p item s).milksandwich = s.milksandwich - 1) ∧
    ((sell p item s).milkmeal = s.milkmeal ∨
     (sell p item s).milkmeal = s.milkmeal - 1) ∧
    ((sell p item s).cheesesandwich = s.cheesesandwich ∨
     (sell p item s).cheesesandwich = s.cheesesandwich - 1) := by
  unfold sell
  split_ifs <;> simp

/-- `craft` is either a no-op or the application of one of the five
recipes of the table (inputs down, output up). -/
lemma craft_recipe_cases (item : String) (s : GameState) :
    craft item s = s ∨
    craft item s = { s with bread := s.bread - 1, milk := s.milk - 1,
                            milkbread := s.milkbread + 1 } ∨
    craft item s = { s with milkbread := s.milkbread - 2,
                            milksandwich := s.milksandwich + 1 } ∨
    craft item s = { s with milksandwich := s.milksandwich - 1,
                            milk := s.milk - 1, plate := s.plate - 1,
                            milkmeal := s.milkmeal + 1 } ∨
    craft item s = { s with milk := s.milk - 1, cheese := s.cheese + 1 } ∨
    craft item s = { s with cheese := s.cheese - 1, bread := s.bread - 2,
                            cheesesandwich := s.cheesesandwich + 1 } := by
  unfold craft
  split_ifs <;>
    first
    | exact Or.inl rfl
    | exact Or.inr (Or.inl rfl)
    | exact Or.inr (Or.inr (Or.inl rfl))
    | exact Or.inr (Or.inr (Or.inr (Or.inl rfl)))
    | exact Or.inr (Or.inr (Or.inr (Or.inr (Or.inl rfl))))
    | exact Or.inr (Or.inr (Or.inr (Or.inr (Or.inr rfl))))

/-- C8 counterexample: the claim says resource counters change only
through `buy` or recipe application, but `sell` also changes them:
from a state holding one milkbread, `sell(1, 'milkbread')` changes the
milkbread counter (1 becomes 0) although `sell` is neither a purchase
nor a recipe application. -/
theorem c8_frame_counterexample :
    (sell 1 "milkbread" { initState with milkbread := 1 }).milkbread ≠
      ({ initState with milkbread := 1 } : GameState).milkbread := by
  decide

/-- C8 amended: the wallet changes only through `buy` (decrease by
price) and `sell` (increase by price) — `craft` leaves it unchanged —
and resource counters change only through `buy` (one primary counter
incremented by 1), recipe application (inputs down, output up), or
`sell` (the sold counter decremented by 1). -/
theorem c8_frame (p : Int) (item : String) (s : GameState) :
    (craft item s).money = s.money ∧
    ((buy p item s).1.money = s.money ∨
     (buy p item s).1.money = s.money - p) ∧
    (((buy p item s).1.milkbread = s.milkbread ∧
      (buy p item s).1.milksandwich = s.milksandwich ∧
      (buy p item s).1.milkmeal = s.milkmeal ∧
      (buy p item s).1.cheese = s.cheese ∧
      (buy p item s).1.cheesesandwich = s.cheesesandwich) ∧
     ((buy p item s).1.milk = s.milk ∨ (buy p item s).1.milk = s.milk + 1) ∧
     ((buy p item s).1.bread = s.bread ∨ (buy p item s).1.bread = s.bread + 1) ∧
     ((buy p item s).1.plate = s.plate ∨ (buy p item s).1.plate = s.plate + 1)) ∧
    ((sell p item s).money = s.money ∨
     (sell p item s).money = s.money + p) ∧
    (((sell p item s).milk = s.milk ∧ (sell p item s).bread = s.bread ∧
      (sell p item s).plate = s.plate ∧ (sell p item s).cheese = s.cheese) ∧
     ((sell p item s).milkbread = s.milkbread ∨
      (sell p item s).milkbread = s.milkbread - 1) ∧
     ((sell p item s).milksandwich = s.milksandwich ∨
      (sell p item s).milksandwich = s.milksandwich - 1) ∧
     ((sell p item s).milkmeal = s.milkmeal ∨
      (sell p item s).milkmeal = s.milkmeal - 1) ∧
     ((sell p item s).cheesesandwich = s.cheesesandwich ∨
      (sell p item s).cheesesandwich = s.cheesesandwich - 1)) ∧
    (craft item s = s ∨
     craft item s = { s with bread := s.bread - 1, milk := s.milk - 1,
                             milkbread := s.milkbread + 1 } ∨
     craft item s = { s with milkbread := s.milkbread - 2,
                             milksandwich := s.milksandwich + 1 } ∨
     craft item s = { s with milksandwich := s.milksandwich - 1,
                             milk := s.milk - 1, plate := s.plate - 1,
                             milkmeal := s.milkmeal + 1 } ∨
     craft item s = { s with milk := s.milk - 1, cheese := s.cheese + 1 } ∨
     craft item s = { s with cheese := s.cheese - 1, bread := s.bread - 2,
                             cheesesandwich := s.cheesesandwich + 1 }) :=
  ⟨craft_money_frame item s, buy_money_frame p item s,
   buy_counters_frame p item s, sell_money_frame p item s,
   sell_counters_frame p item s, craft_recipe_cases item s⟩

/-- C10: when the price exceeds the wallet, `buy` is a silent no-op
even for an unregistered name — no UnknownItem diagnostic is emitted —
because the name check (script.js line 46) sits inside the
wallet-sufficiency guard (line 35); the diagnostic can only fire when
the wallet covers the price. -/
theorem c10_unknown_item_gated_by_wallet (p : Int) (item : String)
    (s : GameState)
    (h1 : item ≠ "milk") (h2 : item ≠ "bread") (h3 : item ≠ "plate") :
    (s.money < p → buy p item s = (s, false)) ∧
    ((buy p item s).2 = true → p ≤ s.money) := by
  constructor
  · intro h
    have hm : ¬ p ≤ s.money := not_le.mpr h
    simp [buy, hm]
  · intro h
    by_contra hm
    simp [buy, hm] at h

/-- Witness for C10: buy(100, 'gold') with money = 10 is a silent
no-op with no diagnostic. -/
theorem c10_unknown_item_gated_by_wallet_witness :
    buy 100 "gold" initState = (initState, false) :=
  (c10_unknown_item_gated_by_wallet 100 "gold" initState
    (by decide) (by decide) (by decide)).1 (by decide)
